import Mathlib

/-!
Shallow embedding of the impact-aydsko-gateway session client.

The repository holds two snapshots of the same Node gateway:
the newer one in src/server.js (v1.1, user agent "ImpactGateway/1.1")
and an earlier one in src/unnamed/part_000 (v1.0, user agent
"ImpactGateway/1.0").  Both are embedded below.  Network traffic is
modelled by a queue of pending responses consumed in order; every
upstream call is recorded in a request log so that theorems can count
login POSTs and data GETs.  The field forcedLogins is a ghost counter:
it is incremented exactly when irLogin is invoked with force set, and
changes nothing else about the behaviour.
-/

/-- A cookie as stored by the tough-cookie jar: a name and a value.
All cookies of this gateway live on the single upstream origin. -/
structure Cookie where
  key : String
  value : String
deriving DecidableEq, Repr

/-- The cookie jar.  The flag malformed models a jar whose backing data
makes lookups throw; server.js wraps every jar access in try/catch. -/
structure Jar where
  cookies : List Cookie
  malformed : Bool
deriving DecidableEq, Repr

/-- A decoded JSON body, as far as the gateway inspects it: an optional
link field, the rest of the object kept opaque in payload. -/
structure Json where
  link : Option String
  payload : String
deriving DecidableEq, Repr

/-- The empty JSON object, the fallback used by server.js when a body
fails to decode. -/
def Json.empty : Json := { link := none, payload := "" }

/-- The JavaScript truthiness test applied by both snapshots to the
link field: present and not the empty string. -/
def Json.linkTruthy (j : Json) : Bool :=
  match j.link with
  | some s => s != ""
  | none => false

/-- The raw HTTP body: either well formed JSON or bytes that make
response.json() reject. -/
inductive Body where
  | json (j : Json)
  | malformed (raw : String)
deriving DecidableEq, Repr

/-- response.json(): succeeds exactly on well formed bodies. -/
def decodeBody : Body → Option Json
  | .json j => some j
  | .malformed _ => none

/-- An upstream HTTP response: status code, cookies carried on
set-cookie headers (stored into the jar by fetch-cookie), body. -/
structure Response where
  status : Nat
  setCookies : List Cookie
  body : Body
deriving DecidableEq, Repr

/-- The fetch response ok flag: status in the range 200 to 299. -/
def Response.isOk (r : Response) : Bool :=
  decide (200 ≤ r.status) && decide (r.status < 300)

/-- HTTP method of an upstream call. -/
inductive Method where
  | get
  | post
deriving DecidableEq, Repr

/-- One upstream request as recorded in the log. -/
structure Request where
  method : Method
  url : String
  headers : List (String × String)
deriving DecidableEq, Repr

/-- Errors thrown by the gateway core.  Each constructor corresponds to
one throw site in the two snapshots. -/
inductive Err where
  | noResponse
  | authFail (status : Nat)
  | noAuthCookie
  | sessionRejected
  | docFail (status : Nat)
  | getFail (url : String) (status : Nat)
  | followFail (url : String) (status : Nat)
  | parseFail
deriving DecidableEq, Repr

/-- The status property attached to the thrown error object, when the
snapshot attaches one (v1.0 throws plain Error values with no status). -/
def Err.statusOf : Err → Option Nat
  | .noResponse => none
  | .authFail s => some s
  | .noAuthCookie => some 401
  | .sessionRejected => some 401
  | .docFail _ => none
  | .getFail _ s => some s
  | .followFail _ s => some s
  | .parseFail => none

deriving instance DecidableEq for Except

/-- The whole interpreter state: jar, lastLogin timestamp, the queue of
responses the network will give, the log of requests made so far, and
the ghost counter of forced logins. -/
structure M where
  jar : Jar
  lastLogin : Nat
  pending : List Response
  log : List Request
  forcedLogins : Nat
deriving DecidableEq, Repr

def IR_BASE : String := "https://members-ng.iracing.com"

def authUrl : String := IR_BASE ++ "/auth"

def rootUrl : String := IR_BASE ++ "/"

def docUrl : String := IR_BASE ++ "/data/doc"

/-- Default user agent of the v1.1 snapshot. -/
def UA : String := "ImpactGateway/1.1 (+node)"

/-- Default user agent of the v1.0 snapshot. -/
def UA10 : String := "ImpactGateway/1.0"

/-- Default login TTL of both snapshots: 25 minutes in milliseconds. -/
def TTL : Nat := 25 * 60 * 1000

/-- tough-cookie setCookie semantics: a cookie replaces a stored cookie
with the same name, otherwise it is appended. -/
def upsertCookie (cs : List Cookie) (c : Cookie) : List Cookie :=
  if cs.any fun d => d.key == c.key then
    cs.map fun d => if d.key == c.key then c else d
  else cs ++ [c]

/-- Store every set-cookie of a response into the jar, in order. -/
def addCookies (cs : List Cookie) (new : List Cookie) : List Cookie :=
  new.foldl upsertCookie cs

/-- jar.removeAllCookiesSync() wrapped in try/catch: clears the store,
and on a malformed store the exception is swallowed leaving it as is. -/
def clearJar (jar : Jar) : Jar :=
  if jar.malformed then jar else { cookies := [], malformed := false }

/-- jar.getCookiesSync(u): in this single-origin gateway every stored
cookie is visible at each queried URL; none models a thrown lookup. -/
def getCookiesSync (jar : Jar) (u : String) : Option (List Cookie) :=
  if jar.malformed then none else some jar.cookies

/-- Does the first list of characters start with the second one? -/
def startsWithList : List Char → List Char → Bool
  | _, [] => true
  | [], _ :: _ => false
  | c :: cs, p :: ps => (c == p) && startsWithList cs ps

/-- The name test of server.js line 34: lowercase the cookie name and
test for the authtoken name at the front. -/
def isAuthName (k : String) : Bool :=
  startsWithList (k.data.map Char.toLower) "authtoken".data

/-- The inner loop of getAuthTokenFromJar: first cookie whose name
passes the authtoken prefix test. -/
def findAuthCookie : List Cookie → Option String
  | [] => none
  | c :: cs => if isAuthName c.key then some c.value else findAuthCookie cs

/-- The three URLs scanned by getAuthTokenFromJar. -/
def lookupUrls : List String := [authUrl, rootUrl, docUrl]

/-- The outer loop over the scanned URLs; a throwing lookup aborts the
whole scan (the surrounding try/catch then yields null). -/
def scanUrls (jar : Jar) : List String → Option String
  | [] => none
  | u :: us =>
    match getCookiesSync jar u with
    | none => none
    | some cs =>
      match findAuthCookie cs with
      | some v => some v
      | none => scanUrls jar us

/-- getAuthTokenFromJar of server.js lines 28 to 40. -/
def getAuthTokenFromJar (jar : Jar) : Option String :=
  scanUrls jar lookupUrls

/-- Header-map lookup with JavaScript object-spread semantics: a later
entry with the same key shadows an earlier one. -/
def hget : List (String × String) → String → Option String
  | [], _ => none
  | (k', v) :: rest, k =>
    match hget rest k with
    | some w => some w
    | none => if k' = k then some v else none

/-- The two base headers of server.js irHeaders. -/
def baseHeaders : List (String × String) :=
  [("accept", "application/json"), ("user-agent", UA)]

/-- The conditional authorization entry of server.js irHeaders. -/
def tokenHeader (jar : Jar) : List (String × String) :=
  match getAuthTokenFromJar jar with
  | some t => [("authorization", "Bearer " ++ t)]
  | none => []

/-- irHeaders of server.js lines 42 to 50: base headers, then the
bearer entry when a token is derivable, then the extra entries. -/
def irHeaders (jar : Jar) (extra : List (String × String)) : List (String × String) :=
  baseHeaders ++ tokenHeader jar ++ extra

/-- irHeaders of the v1.0 snapshot lines 34 to 36: base headers and the
extras only; it never consults the jar and never adds authorization. -/
def irHeaders10 (extra : List (String × String)) : List (String × String) :=
  [("accept", "application/json"), ("user-agent", UA10)] ++ extra

/-- Headers of the v1.1 login POST. -/
def loginHeaders : List (String × String) :=
  [("content-type", "application/json"), ("user-agent", UA)]

/-- Headers of the v1.0 login POST: content-type spread with irHeaders. -/
def loginHeaders10 : List (String × String) :=
  ("content-type", "application/json") :: irHeaders10 []

/-- One network call: consume the next pending response, record the
request, and store the set-cookies of the response into the jar.  An
exhausted queue models a network that never answers. -/
def doFetch (mth : Method) (url : String) (hs : List (String × String)) (m : M) :
    Except Err Response × M :=
  match m.pending with
  | [] => (.error .noResponse, m)
  | r :: rest =>
    (.ok r,
      { m with
        pending := rest
        log := m.log ++ [{ method := mth, url := url, headers := hs }]
        jar := { m.jar with cookies := addCookies m.jar.cookies r.setCookies } })

/-- irLogin of server.js lines 52 to 75.  Skip inside the TTL window
unless forced; when forced, clear the jar (and bump the ghost counter);
POST the credentials; fail on a non-ok status; fail with status 401
when no authtoken cookie landed in the jar; probe GET /data/doc and
fail with the distinct session-rejected error on 401; otherwise record
the login time. -/
def irLogin (force : Bool) (now : Nat) (m : M) : Except Err Unit × M :=
  if (force = false) ∧ now - m.lastLogin < TTL then (.ok (), m)
  else
    match doFetch .post authUrl loginHeaders
        (if force then
          { m with forcedLogins := m.forcedLogins + 1, jar := clearJar m.jar }
        else m) with
    | (.error e, m1) => (.error e, m1)
    | (.ok r, m1) =>
      if r.isOk then
        match getAuthTokenFromJar m1.jar with
        | none => (.error .noAuthCookie, m1)
        | some _ =>
          match doFetch .get docUrl (irHeaders m1.jar []) m1 with
          | (.error e, m2) => (.error e, m2)
          | (.ok p, m2) =>
            if p.status = 401 then (.error .sessionRejected, m2)
            else (.ok (), { m2 with lastLogin := now })
      else (.error (.authFail r.status), m1)

/-- The fetch-with-one-retry-on-401 step used twice by followJson
(server.js lines 80 to 81 and 87 to 88): GET the URL; on a 401, force a
re-login and GET it once more. -/
def fetchWithRetry (url : String) (now : Nat) (m : M) : Except Err Response × M :=
  match doFetch .get url (irHeaders m.jar []) m with
  | (.error e, m1) => (.error e, m1)
  | (.ok r, m1) =>
    if r.status = 401 then
      match irLogin true now m1 with
      | (.error e, m2) => (.error e, m2)
      | (.ok _, m2) => doFetch .get url (irHeaders m2.jar []) m2
    else (.ok r, m1)

/-- followJson of server.js lines 77 to 93.  Ensure a session, fetch
the URL with one retry on 401, fail on a non-ok response, decode the
body with the empty object as fallback; when the decoded body carries a
truthy link, fetch that link the same way and return its decoded body,
where a decode failure at this second stage rejects (r2.json() has no
catch). -/
def followJson (url : String) (now : Nat) (m : M) : Except Err Json × M :=
  match irLogin false now m with
  | (.error e, m1) => (.error e, m1)
  | (.ok _, m1) =>
    match fetchWithRetry url now m1 with
    | (.error e, m2) => (.error e, m2)
    | (.ok r, m2) =>
      if r.isOk then
        if ((decodeBody r.body).getD Json.empty).linkTruthy then
          match fetchWithRetry (((decodeBody r.body).getD Json.empty).link.getD "") now m2 with
          | (.error e, m3) => (.error e, m3)
          | (.ok r2, m3) =>
            if r2.isOk then
              match decodeBody r2.body with
              | some j2 => (.ok j2, m3)
              | none => (.error .parseFail, m3)
            else
              (.error
                (.followFail (((decodeBody r.body).getD Json.empty).link.getD "") r2.status), m3)
        else (.ok ((decodeBody r.body).getD Json.empty), m2)
      else (.error (.getFail url r.status), m2)

/-- irLogin of the v1.0 snapshot lines 38 to 50: same TTL guard, but no
jar clearing on force, no authtoken check, and the probe rejects on any
non-ok status with a plain error. -/
def irLogin10 (force : Bool) (now : Nat) (m : M) : Except Err Unit × M :=
  if (force = false) ∧ now - m.lastLogin < TTL then (.ok (), m)
  else
    match doFetch .post authUrl loginHeaders10
        (if force then { m with forcedLogins := m.forcedLogins + 1 } else m) with
    | (.error e, m1) => (.error e, m1)
    | (.ok r, m1) =>
      if r.isOk then
        match doFetch .get docUrl (irHeaders10 []) m1 with
        | (.error e, m2) => (.error e, m2)
        | (.ok p, m2) =>
          if p.isOk then (.ok (), { m2 with lastLogin := now })
          else (.error (.docFail p.status), m2)
      else (.error (.authFail r.status), m1)

/-- irFollowJson of the v1.0 snapshot lines 52 to 64: one retry on 401
for the first GET only; the body decode has no fallback, so a malformed
body rejects; the link GET is issued once with no retry. -/
def irFollowJson (url : String) (now : Nat) (m : M) : Except Err Json × M :=
  match irLogin10 false now m with
  | (.error e, m1) => (.error e, m1)
  | (.ok _, m1) =>
    match doFetch .get url (irHeaders10 []) m1 with
    | (.error e, m2) => (.error e, m2)
    | (.ok r0, m2) =>
      match
        ((if r0.status = 401 then
          match irLogin10 true now m2 with
          | (.error e, m3) => (.error e, m3)
          | (.ok _, m3) => doFetch .get url (irHeaders10 []) m3
        else (.ok r0, m2)) : Except Err Response × M) with
      | (.error e, m3) => (.error e, m3)
      | (.ok r, m3) =>
        if r.isOk then
          match decodeBody r.body with
          | none => (.error .parseFail, m3)
          | some body =>
            if body.linkTruthy then
              match doFetch .get (body.link.getD "") (irHeaders10 []) m3 with
              | (.error e, m4) => (.error e, m4)
              | (.ok r2, m4) =>
                if r2.isOk then
                  match decodeBody r2.body with
                  | some j2 => (.ok j2, m4)
                  | none => (.error .parseFail, m4)
                else (.error (.followFail (body.link.getD "") r2.status), m4)
            else (.ok body, m3)
        else (.error (.getFail url r.status), m3)

/-- The regex replace of server.js line 98: strip a leading case
insensitive Bearer followed by whitespace, else leave the string. -/
def stripBearer (s : String) : String :=
  if (s.take 6).toLower = "bearer" then
    let rest := s.drop 6
    match rest.data with
    | [] => s
    | c :: _ => if c.isWhitespace then rest.dropWhile Char.isWhitespace else s
  else s

/-- authz of server.js lines 95 to 102, with the two configured secrets
and the two inbound header values as parameters. -/
def authz (KEY TOK : String) (apiKeyHeader authHeader : Option String) : Bool :=
  if KEY == "" && TOK == "" then true
  else
    let k := apiKeyHeader.getD ""
    let b := stripBearer (authHeader.getD "")
    if KEY != "" && k == KEY then true
    else if TOK != "" && b == TOK then true
    else false

/-- Is a logged request the login POST? -/
def isAuthPost (r : Request) : Bool :=
  match r.method with
  | .post => r.url == authUrl
  | .get => false

/-- Number of login POSTs in a request log. -/
def countAuthPosts (log : List Request) : Nat :=
  (log.filter isAuthPost).length

/-- Method and URL of each logged request, used to state trace shapes
without spelling out header lists. -/
def reqMeta (log : List Request) : List (Method × String) :=
  log.map fun r => (r.method, r.url)

/-- Repeated irLogin false calls at the given instants. -/
def irLoginSeq (ts : List Nat) (m : M) : M :=
  ts.foldl (fun acc t => (irLogin false t acc).2) m

/-- Repeated v1.0 irLogin false calls at the given instants. -/
def irLoginSeq10 (ts : List Nat) (m : M) : M :=
  ts.foldl (fun acc t => (irLogin10 false t acc).2) m

/-! Basic lemmas about the cookie store and header construction. -/

/-- Any element of an upsert result comes from the store or is the new
cookie itself. -/
theorem mem_upsertCookie {cs : List Cookie} {d c : Cookie}
    (h : c ∈ upsertCookie cs d) : c ∈ cs ∨ c = d := by
  unfold upsertCookie at h
  split at h
  · rcases List.mem_map.1 h with ⟨e, he, hec⟩
    by_cases hk : e.key == d.key
    · right; simp [hk] at hec; exact hec.symm
    · left; simp [hk] at hec; exact hec ▸ he
  · rcases List.mem_append.1 h with h1 | h1
    · exact Or.inl h1
    · right; simpa using h1

/-- Upserting preserves an existing authtoken-named cookie: the only
replacement that can happen swaps in a cookie with the same name. -/
theorem upsert_exists_auth {cs : List Cookie} {d : Cookie}
    (h : ∃ c ∈ cs, isAuthName c.key = true) :
    ∃ c ∈ upsertCookie cs d, isAuthName c.key = true := by
  rcases h with ⟨c, hc, hauth⟩
  unfold upsertCookie
  split
  · by_cases hk : c.key == d.key
    · refine ⟨d, List.mem_map.2 ⟨c, hc, by simp [hk]⟩, ?_⟩
      have : c.key = d.key := by simpa using hk
      rwa [← this]
    · exact ⟨c, List.mem_map.2 ⟨c, hc, by simp [hk]⟩, hauth⟩
  · exact ⟨c, List.mem_append.2 (Or.inl hc), hauth⟩

/-- The new cookie itself is present after an upsert. -/
theorem upsert_self_mem (cs : List Cookie) (d : Cookie) :
    d ∈ upsertCookie cs d := by
  unfold upsertCookie
  split
  case isTrue hany =>
    rcases List.any_eq_true.1 hany with ⟨e, he, hek⟩
    exact List.mem_map.2 ⟨e, he, by simp [hek]⟩
  case isFalse => simp

/-- Unfolding step of the batch insert. -/
theorem addCookies_cons (cs : List Cookie) (d : Cookie) (ds : List Cookie) :
    addCookies cs (d :: ds) = addCookies (upsertCookie cs d) ds := rfl

/-- Storing a batch keeps some authtoken-named cookie that was already
in the store. -/
theorem addCookies_exists_auth_of_base {new : List Cookie} :
    ∀ {cs : List Cookie}, (∃ c ∈ cs, isAuthName c.key = true) →
      ∃ c ∈ addCookies cs new, isAuthName c.key = true := by
  induction new with
  | nil => intro cs h; exact h
  | cons d ds ih =>
    intro cs h
    rw [addCookies_cons]
    exact ih (upsert_exists_auth h)

/-- Storing a batch that contains an authtoken-named cookie leaves an
authtoken-named cookie in the store. -/
theorem addCookies_exists_auth_of_new {new : List Cookie} :
    ∀ {cs : List Cookie}, (∃ c ∈ new, isAuthName c.key = true) →
      ∃ c ∈ addCookies cs new, isAuthName c.key = true := by
  induction new with
  | nil => intro cs h; simp at h
  | cons d ds ih =>
    intro cs h
    rw [addCookies_cons]
    rcases h with ⟨c, hc, hauth⟩
    rcases List.mem_cons.1 hc with rfl | hc'
    · exact addCookies_exists_auth_of_base
        ⟨c, upsert_self_mem cs c, hauth⟩
    · exact ih ⟨c, hc', hauth⟩

/-- Every cookie in the store after a batch insert comes from the old
store or from the batch. -/
theorem mem_addCookies {new : List Cookie} :
    ∀ {cs : List Cookie} {c : Cookie}, c ∈ addCookies cs new →
      c ∈ cs ∨ c ∈ new := by
  induction new with
  | nil => intro cs c h; exact Or.inl h
  | cons d ds ih =>
    intro cs c h
    rw [addCookies_cons] at h
    rcases ih h with h1 | h1
    · rcases mem_upsertCookie h1 with h2 | h2
      · exact Or.inl h2
      · exact Or.inr (h2 ▸ List.mem_cons_self d ds)
    · exact Or.inr (List.mem_cons_of_mem d h1)

/-- The scan over one cookie list finds a value exactly when a cookie
with the authtoken name prefix is present. -/
theorem findAuthCookie_isSome_iff (cs : List Cookie) :
    (findAuthCookie cs).isSome = true ↔ ∃ c ∈ cs, isAuthName c.key = true := by
  induction cs with
  | nil => simp [findAuthCookie]
  | cons c cs ih =>
    by_cases h : isAuthName c.key = true
    · simp [findAuthCookie, h]
    · simp [findAuthCookie, h, ih]

/-- Token extraction succeeds exactly when the jar is readable and some
stored cookie carries the authtoken name prefix. -/
theorem getAuthToken_isSome_iff (jar : Jar) :
    (getAuthTokenFromJar jar).isSome = true ↔
      jar.malformed = false ∧ ∃ c ∈ jar.cookies, isAuthName c.key = true := by
  cases hmal : jar.malformed with
  | true =>
    simp [getAuthTokenFromJar, lookupUrls, scanUrls, getCookiesSync, hmal]
  | false =>
    have hstep : getAuthTokenFromJar jar = findAuthCookie jar.cookies := by
      simp only [getAuthTokenFromJar, lookupUrls, scanUrls, getCookiesSync, hmal]
      cases hf : findAuthCookie jar.cookies <;> simp [hf]
    rw [hstep]
    constructor
    · intro h
      exact ⟨rfl, (findAuthCookie_isSome_iff jar.cookies).1 h⟩
    · intro h
      exact (findAuthCookie_isSome_iff jar.cookies).2 h.2

/-- Lookup in an appended header list: the later block wins. -/
theorem hget_append (a b : List (String × String)) (k : String) :
    hget (a ++ b) k =
      match hget b k with
      | some w => some w
      | none => hget a k := by
  induction a with
  | nil =>
    cases hb : hget b k <;> simp [hget, hb]
  | cons p a ih =>
    obtain ⟨k', v⟩ := p
    show (match hget (a ++ b) k with
          | some w => some w
          | none => if k' = k then some v else none) = _
    rw [ih]
    cases hb : hget b k with
    | none => rfl
    | some w => rfl

/-! Claim theorems: credential store. -/

/-- C3: for every state of the cookie store, getAuthTokenFromJar
returns a value if and only if the store is readable and some stored
cookie has a name that, lowercased, starts with authtoken; a malformed
store yields no token, and the function is total, so it never raises. -/
theorem c3_token_iff_authtoken_cookie (jar : Jar) :
    (∃ v, getAuthTokenFromJar jar = some v) ↔
      (jar.malformed = false ∧ ∃ c ∈ jar.cookies, isAuthName c.key = true) := by
  rw [← getAuthToken_isSome_iff]
  constructor
  · rintro ⟨v, hv⟩; simp [hv]
  · intro h; exact Option.isSome_iff_exists.1 h

/-- C5 (amended): lookup in the header map built by the v1.1 irHeaders:
an entry of extra wins, otherwise authorization is present exactly when
a token can be derived from the jar, otherwise the base entries. -/
theorem c5_irHeaders_lookup (jar : Jar) (extra : List (String × String)) (k : String) :
    hget (irHeaders jar extra) k =
      match hget extra k with
      | some v => some v
      | none =>
        if k = "authorization" then
          (getAuthTokenFromJar jar).map fun t => "Bearer " ++ t
        else if k = "accept" then some "application/json"
        else if k = "user-agent" then some UA
        else none := by
  have h1 : irHeaders jar extra = (baseHeaders ++ tokenHeader jar) ++ extra := by
    simp [irHeaders, List.append_assoc]
  rw [h1, hget_append]
  cases hx : hget extra k with
  | some v => rfl
  | none =>
    show hget (baseHeaders ++ tokenHeader jar) k = _
    rw [hget_append]
    cases htok : getAuthTokenFromJar jar with
    | some t =>
      simp only [tokenHeader, htok]
      by_cases hk1 : k = "authorization"
      · subst hk1; simp [hget, baseHeaders, tokenHeader, htok]
      · by_cases hk2 : k = "accept"
        · subst hk2; simp [hget, baseHeaders, tokenHeader, htok]
        · by_cases hk3 : k = "user-agent"
          · subst hk3; simp [hget, baseHeaders, tokenHeader, htok]
          · have g1 : ¬("authorization" = k) := fun h => hk1 h.symm
            have g2 : ¬("accept" = k) := fun h => hk2 h.symm
            have g3 : ¬("user-agent" = k) := fun h => hk3 h.symm
            simp [hget, baseHeaders, tokenHeader, htok, hk1, hk2, hk3, g1, g2, g3]
    | none =>
      simp only [tokenHeader, htok]
      by_cases hk1 : k = "authorization"
      · subst hk1; simp [hget, baseHeaders, tokenHeader, htok]
      · by_cases hk2 : k = "accept"
        · subst hk2; simp [hget, baseHeaders, tokenHeader, htok]
        · by_cases hk3 : k = "user-agent"
          · subst hk3; simp [hget, baseHeaders, tokenHeader, htok]
          · have g1 : ¬("authorization" = k) := fun h => hk1 h.symm
            have g2 : ¬("accept" = k) := fun h => hk2 h.symm
            have g3 : ¬("user-agent" = k) := fun h => hk3 h.symm
            simp [hget, baseHeaders, tokenHeader, htok, hk1, hk2, hk3, g1, g2, g3]

/-! Concrete scenario material used by the counterexamples and
witnesses: a fresh state, an authtoken cookie, and stock responses. -/

/-- An empty, readable jar. -/
def emptyJar : Jar := { cookies := [], malformed := false }

/-- A state with a given response queue, empty jar, lastLogin zero and
nothing logged. -/
def initM (pend : List Response) : M :=
  { jar := emptyJar, lastLogin := 0, pending := pend, log := [], forcedLogins := 0 }

/-- A cookie the upstream sets on login. -/
def sampleAuthCookie : Cookie := { key := "authtoken_members", value := "abc" }

/-- A 200 response with the given body and no cookies. -/
def resp200 (b : Body) : Response := { status := 200, setCookies := [], body := b }

/-- A 401 response. -/
def resp401 : Response := { status := 401, setCookies := [], body := .json Json.empty }

/-- A successful login POST response carrying the authtoken cookie. -/
def respAuthOk : Response :=
  { status := 200, setCookies := [sampleAuthCookie], body := .json Json.empty }

/-- A successful probe response. -/
def respProbeOk : Response := { status := 200, setCookies := [], body := .json Json.empty }

/-- Queue for the double-forced-relogin run: first-stage GET 401,
re-login, retry finds a link, link GET 401, second re-login, retry ok. -/
def doubleReloginQueue : List Response :=
  [resp401, respAuthOk, respProbeOk,
   resp200 (.json { link := some "https://x/blob/777", payload := "" }),
   resp401, respAuthOk, respProbeOk,
   resp200 (.json { link := none, payload := "laps" })]

/-- Queue for the v1.0 link-stage run: first GET finds a link, the link
GET answers 401, and responses for a full re-login and retry are left
available. -/
def linkStage401Queue : List Response :=
  [resp200 (.json { link := some "U2", payload := "" }),
   resp401, respAuthOk, respProbeOk,
   resp200 (.json { link := none, payload := "laps" })]

/-- Queue for the link-stage decode failure run: first GET finds a
link, the link GET is a 200 whose body is not JSON. -/
def linkStageBadBodyQueue : List Response :=
  [resp200 (.json { link := some "U2", payload := "" }),
   resp200 (.malformed "not json")]

/-- C1 counterexample: one external followJson call in which both the
first-stage GET and the link-stage GET answer 401; the call succeeds
after performing two forced re-logins (and two login POSTs), refuting
the at-most-one-forced-re-login-per-external-call bound. -/
theorem c1_two_forced_relogins_in_one_call :
    (initM doubleReloginQueue).forcedLogins = 0 ∧
    (followJson "U1" 5 (initM doubleReloginQueue)).1 =
      .ok { link := none, payload := "laps" } ∧
    ((followJson "U1" 5 (initM doubleReloginQueue)).2).forcedLogins = 2 ∧
    countAuthPosts ((followJson "U1" 5 (initM doubleReloginQueue)).2).log = 2 :=
  ⟨rfl, rfl, by decide, by decide⟩

/-- C2 counterexample: in the v1.0 irFollowJson, a 401 on the link-stage
GET is surfaced directly with no re-login and no retry, even though the
queue still holds the responses a retry would have used: the state
after the call shows zero login POSTs, zero forced re-logins, and three
unconsumed responses. -/
theorem c2_v10_link_get_not_retried :
    (irFollowJson "U1" 5 (initM linkStage401Queue)).1 =
      .error (.followFail "U2" 401) ∧
    countAuthPosts ((irFollowJson "U1" 5 (initM linkStage401Queue)).2).log = 0 ∧
    ((irFollowJson "U1" 5 (initM linkStage401Queue)).2).forcedLogins = 0 ∧
    ((irFollowJson "U1" 5 (initM linkStage401Queue)).2).pending.length = 3 :=
  ⟨rfl, by decide, by decide, by decide⟩

/-- C4 counterexample: in server.js followJson, a successful link-stage
response whose body fails to decode is not turned into an empty object:
the call fails with the parse error (r2.json() has no catch). -/
theorem c4_link_stage_parse_error_propagates :
    (followJson "U1" 5 (initM linkStageBadBodyQueue)).1 = .error .parseFail ∧
    (followJson "U1" 5 (initM linkStageBadBodyQueue)).1 ≠ .ok Json.empty :=
  ⟨rfl, by decide⟩

/-- C5 counterexample: the v1.0 irHeaders never attaches an
authorization header, even in a state of the store from which
extractToken derives a token. -/
theorem c5_v10_headers_ignore_token :
    getAuthTokenFromJar { cookies := [sampleAuthCookie], malformed := false } =
      some "abc" ∧
    hget (irHeaders10 []) "authorization" = none :=
  ⟨rfl, rfl⟩

/-- C10: with both gateway secrets unset, authz accepts every inbound
request, whatever its x-api-key and authorization headers carry. -/
theorem c10_authz_open_when_unconfigured (apiKeyHeader authHeader : Option String) :
    authz "" "" apiKeyHeader authHeader = true := rfl

/-! State lemmas about the network step and the login routine. -/

/-- A network step never touches the ghost counter or the login time. -/
theorem doFetch_state {mth : Method} {u : String} {hs : List (String × String)}
    {m : M} {res : Except Err Response} {m' : M}
    (h : doFetch mth u hs m = (res, m')) :
    m'.forcedLogins = m.forcedLogins ∧ m'.lastLogin = m.lastLogin := by
  unfold doFetch at h
  cases hp : m.pending with
  | nil => rw [hp] at h; cases h; exact ⟨rfl, rfl⟩
  | cons r rest => rw [hp] at h; cases h; exact ⟨rfl, rfl⟩

/-- Splitting the login POST count over an appended log. -/
theorem countAuthPosts_append (a b : List Request) :
    countAuthPosts (a ++ b) = countAuthPosts a + countAuthPosts b := by
  simp [countAuthPosts, List.filter_append]

/-- A GET step adds no login POST to the log. -/
theorem doFetch_posts_get {u : String} {hs : List (String × String)}
    {m : M} {res : Except Err Response} {m' : M}
    (h : doFetch .get u hs m = (res, m')) :
    countAuthPosts m'.log = countAuthPosts m.log := by
  unfold doFetch at h
  cases hp : m.pending with
  | nil => rw [hp] at h; cases h; rfl
  | cons r rest =>
    rw [hp] at h; cases h
    simp [countAuthPosts_append, countAuthPosts, isAuthPost]

/-- A POST step adds at most one login POST to the log. -/
theorem doFetch_posts_post {u : String} {hs : List (String × String)}
    {m : M} {res : Except Err Response} {m' : M}
    (h : doFetch .post u hs m = (res, m')) :
    countAuthPosts m'.log ≤ countAuthPosts m.log + 1 := by
  unfold doFetch at h
  cases hp : m.pending with
  | nil => rw [hp] at h; cases h; exact Nat.le_succ _
  | cons r rest =>
    rw [hp] at h; cases h
    simp only [countAuthPosts_append]
    have : countAuthPosts [{ method := Method.post, url := u, headers := hs }] ≤ 1 := by
      cases hb : isAuthPost { method := Method.post, url := u, headers := hs } <;>
        simp [countAuthPosts, List.filter, hb]
    omega

/-! Ghost-counter and login-POST bounds for the v1.1 routines. -/

/-- The ghost counter after irLogin: up by one exactly on a forced
call. -/
theorem irLogin_forced {force : Bool} {now : Nat} {m : M} {res : Except Err Unit} {m' : M}
    (h : irLogin force now m = (res, m')) :
    m'.forcedLogins = m.forcedLogins + (if force then 1 else 0) := by
  unfold irLogin at h
  split at h
  case isTrue hg => cases h; rw [hg.1]; simp
  case isFalse hg =>
    split at h
    next e m1 heq =>
      cases h
      have h1 := (doFetch_state heq).1
      cases force <;> simp_all
    next r m1 heq =>
      have h1 := (doFetch_state heq).1
      split at h
      · split at h
        · cases h
          cases force <;> simp_all
        · split at h
          next e m2 heq2 =>
            cases h
            have h2 := (doFetch_state heq2).1
            cases force <;> simp_all
          next p m2 heq2 =>
            have h2 := (doFetch_state heq2).1
            split at h
            · cases h
              cases force <;> simp_all
            · cases h
              cases force <;> simp_all
      · cases h
        cases force <;> simp_all

theorem irLogin_posts {force : Bool} {now : Nat} {m : M} {res : Except Err Unit} {m' : M}
    (h : irLogin force now m = (res, m')) :
    countAuthPosts m'.log ≤ countAuthPosts m.log + 1 := by
  unfold irLogin at h
  split at h
  case isTrue hg => cases h; omega
  case isFalse hg =>
    split at h
    next e m1 heq =>
      cases h
      have h1 := doFetch_posts_post heq
      cases force <;> simp_all <;> omega
    next r m1 heq =>
      have h1 := doFetch_posts_post heq
      split at h
      · split at h
        · cases h
          cases force <;> simp_all <;> omega
        · split at h
          next e m2 heq2 =>
            cases h
            have h2 := doFetch_posts_get heq2
            cases force <;> simp_all <;> omega
          next p m2 heq2 =>
            have h2 := doFetch_posts_get heq2
            split at h
            · cases h
              cases force <;> simp_all <;> omega
            · cases h
              cases force <;> simp_all <;> omega
      · cases h
        cases force <;> simp_all <;> omega

theorem irLogin_lastLogin_error {force : Bool} {now : Nat} {m : M} {e : Err} {m' : M}
    (h : irLogin force now m = (.error e, m')) :
    m'.lastLogin = m.lastLogin := by
  unfold irLogin at h
  split at h
  case isTrue hg => simp at h
  case isFalse hg =>
    split at h
    next e1 m1 heq =>
      cases h
      have h1 := (doFetch_state heq).2
      cases force <;> simp_all
    next r m1 heq =>
      have h1 := (doFetch_state heq).2
      split at h
      · split at h
        · cases h
          cases force <;> simp_all
        · split at h
          next e1 m2 heq2 =>
            cases h
            have h2 := (doFetch_state heq2).2
            cases force <;> simp_all
          next p m2 heq2 =>
            have h2 := (doFetch_state heq2).2
            split at h
            · cases h
              cases force <;> simp_all
            · simp at h
      · cases h
        cases force <;> simp_all

theorem fetchWithRetry_forced {url : String} {now : Nat} {m : M}
    {res : Except Err Response} {m' : M}
    (h : fetchWithRetry url now m = (res, m')) :
    m'.forcedLogins ≤ m.forcedLogins + 1 := by
  unfold fetchWithRetry at h
  split at h
  next e m1 heq =>
    cases h
    have h1 := (doFetch_state heq).1
    omega
  next r m1 heq =>
    have h1 := (doFetch_state heq).1
    split at h
    · split at h
      next e m2 heq2 =>
        cases h
        have h2 := irLogin_forced heq2
        simp at h2
        omega
      next u2 m2 heq2 =>
        have h2 := irLogin_forced heq2
        simp at h2
        have h3 := (doFetch_state h).1
        omega
    · cases h
      omega

theorem followJson_forced {url : String} {now : Nat} {m : M}
    {res : Except Err Json} {m' : M}
    (h : followJson url now m = (res, m')) :
    m'.forcedLogins ≤ m.forcedLogins + 2 := by
  unfold followJson at h
  split at h
  next e m1 heq =>
    cases h
    have h1 := irLogin_forced heq
    simp at h1
    omega
  next u1 m1 heq =>
    have h1 := irLogin_forced heq
    simp at h1
    split at h
    next e m2 heq2 =>
      cases h
      have h2 := fetchWithRetry_forced heq2
      omega
    next r m2 heq2 =>
      have h2 := fetchWithRetry_forced heq2
      split at h
      · split at h
        · split at h
          next e m3 heq3 =>
            cases h
            have h3 := fetchWithRetry_forced heq3
            omega
          next r2 m3 heq3 =>
            have h3 := fetchWithRetry_forced heq3
            split at h
            · split at h
              · cases h; omega
              · cases h; omega
            · cases h; omega
        · cases h; omega
      · cases h; omega

/-- C1 (amended): in server.js followJson, each GET stage performs at
most one forced re-login (fetch-with-retry bound), so one external
followJson call performs at most two forced re-logins: one for the
first-stage GET and one for the link-stage GET; the per-call bound of
one claimed by the spec is refuted by the counterexample. -/
theorem c1_forced_relogin_bounds :
    (∀ url now m, ((fetchWithRetry url now m).2).forcedLogins ≤ m.forcedLogins + 1) ∧
    (∀ url now m, ((followJson url now m).2).forcedLogins ≤ m.forcedLogins + 2) :=
  ⟨fun _ _ _ => fetchWithRetry_forced rfl, fun _ _ _ => followJson_forced rfl⟩

/-! TTL idempotence lemmas. -/

/-- Within the TTL window an unforced v1.1 login is a no-op. -/
theorem irLogin_noop {now : Nat} {m : M} (h : now - m.lastLogin < TTL) :
    irLogin false now m = (.ok (), m) := by
  unfold irLogin
  rw [if_pos ⟨rfl, h⟩]

/-- Within the TTL window an unforced v1.0 login is a no-op. -/
theorem irLogin10_noop {now : Nat} {m : M} (h : now - m.lastLogin < TTL) :
    irLogin10 false now m = (.ok (), m) := by
  unfold irLogin10
  rw [if_pos ⟨rfl, h⟩]

/-- A v1.0 login makes at most one login POST. -/
theorem irLogin10_posts {force : Bool} {now : Nat} {m : M} {res : Except Err Unit} {m' : M}
    (h : irLogin10 force now m = (res, m')) :
    countAuthPosts m'.log ≤ countAuthPosts m.log + 1 := by
  unfold irLogin10 at h
  split at h
  case isTrue hg => cases h; omega
  case isFalse hg =>
    split at h
    next e m1 heq =>
      cases h
      have h1 := doFetch_posts_post heq
      cases force <;> simp_all <;> omega
    next r m1 heq =>
      have h1 := doFetch_posts_post heq
      split at h
      · split at h
        next e m2 heq2 =>
          cases h
          have h2 := doFetch_posts_get heq2
          cases force <;> simp_all <;> omega
        next p m2 heq2 =>
          have h2 := doFetch_posts_get heq2
          split at h
          · cases h
            cases force <;> simp_all <;> omega
          · cases h
            cases force <;> simp_all <;> omega
      · cases h
        cases force <;> simp_all <;> omega

/-- A whole sequence of in-window unforced v1.1 logins leaves the state
untouched. -/
theorem irLoginSeq_noop : ∀ (ts : List Nat) (m : M),
    (∀ t ∈ ts, t - m.lastLogin < TTL) → irLoginSeq ts m = m := by
  intro ts
  induction ts with
  | nil => intro m _; rfl
  | cons t ts ih =>
    intro m h
    have hstep : irLogin false t m = (.ok (), m) :=
      irLogin_noop (h t (List.mem_cons_self t ts))
    show irLoginSeq ts (irLogin false t m).2 = m
    rw [hstep]
    exact ih m fun t' ht' => h t' (List.mem_cons_of_mem t ht')

/-- A whole sequence of in-window unforced v1.0 logins leaves the state
untouched. -/
theorem irLoginSeq10_noop : ∀ (ts : List Nat) (m : M),
    (∀ t ∈ ts, t - m.lastLogin < TTL) → irLoginSeq10 ts m = m := by
  intro ts
  induction ts with
  | nil => intro m _; rfl
  | cons t ts ih =>
    intro m h
    have hstep : irLogin10 false t m = (.ok (), m) :=
      irLogin10_noop (h t (List.mem_cons_self t ts))
    show irLoginSeq10 ts (irLogin10 false t m).2 = m
    rw [hstep]
    exact ih m fun t' ht' => h t' (List.mem_cons_of_mem t ht')

/-- C6: in both snapshots, an unforced ensureSession call inside the
TTL window is a no-op returning at once with no network traffic, and a
first call followed by any number of calls whose instants lie inside
the TTL window of the resulting state performs at most one login POST
in total. -/
theorem c6_ttl_idempotence :
    (∀ (now : Nat) (m : M), now - m.lastLogin < TTL →
      irLogin false now m = (.ok (), m)) ∧
    (∀ (t0 : Nat) (ts : List Nat) (m : M),
      (∀ t ∈ ts, t - ((irLogin false t0 m).2).lastLogin < TTL) →
      irLoginSeq ts ((irLogin false t0 m).2) = ((irLogin false t0 m).2) ∧
      countAuthPosts ((irLogin false t0 m).2).log ≤ countAuthPosts m.log + 1) ∧
    (∀ (now : Nat) (m : M), now - m.lastLogin < TTL →
      irLogin10 false now m = (.ok (), m)) ∧
    (∀ (t0 : Nat) (ts : List Nat) (m : M),
      (∀ t ∈ ts, t - ((irLogin10 false t0 m).2).lastLogin < TTL) →
      irLoginSeq10 ts ((irLogin10 false t0 m).2) = ((irLogin10 false t0 m).2) ∧
      countAuthPosts ((irLogin10 false t0 m).2).log ≤ countAuthPosts m.log + 1) := by
  refine ⟨fun now m h => irLogin_noop h, fun t0 ts m h => ⟨?_, ?_⟩,
    fun now m h => irLogin10_noop h, fun t0 ts m h => ⟨?_, ?_⟩⟩
  · exact irLoginSeq_noop ts _ h
  · exact irLogin_posts rfl
  · exact irLoginSeq10_noop ts _ h
  · exact irLogin10_posts rfl

/-- Witness for C6: a no-op call on a fresh state; and a cold-state
login at instant TTL followed by a call at instant TTL plus one, with
one login POST in total, in both snapshots. -/
theorem c6_ttl_idempotence_witness :
    irLogin false 5 (initM []) = (.ok (), initM []) ∧
    (irLoginSeq [TTL + 1] ((irLogin false TTL (initM [respAuthOk, respProbeOk])).2) =
        ((irLogin false TTL (initM [respAuthOk, respProbeOk])).2) ∧
      countAuthPosts ((irLogin false TTL (initM [respAuthOk, respProbeOk])).2).log ≤
        countAuthPosts (initM [respAuthOk, respProbeOk]).log + 1) ∧
    irLogin10 false 5 (initM []) = (.ok (), initM []) ∧
    (irLoginSeq10 [TTL + 1] ((irLogin10 false TTL (initM [respAuthOk, respProbeOk])).2) =
        ((irLogin10 false TTL (initM [respAuthOk, respProbeOk])).2) ∧
      countAuthPosts ((irLogin10 false TTL (initM [respAuthOk, respProbeOk])).2).log ≤
        countAuthPosts (initM [respAuthOk, respProbeOk]).log + 1) :=
  ⟨c6_ttl_idempotence.1 5 (initM []) (by decide),
   c6_ttl_idempotence.2.1 TTL [TTL + 1] (initM [respAuthOk, respProbeOk]) (by decide),
   c6_ttl_idempotence.2.2.1 5 (initM []) (by decide),
   c6_ttl_idempotence.2.2.2 TTL [TTL + 1] (initM [respAuthOk, respProbeOk]) (by decide)⟩

/-! Probe-rejection lemmas for C7. -/

/-- In server.js irLogin, a successful login POST that stores an
authtoken cookie followed by a 401 probe fails with the distinct
session-rejected error, does not update lastLogin, and stops after
exactly the POST and the probe. -/
theorem irLogin_probe401_rejects (force : Bool) (now : Nat) (m : M)
    (ra rp : Response)
    (hguard : force = true ∨ TTL ≤ now - m.lastLogin)
    (hp : m.pending = [ra, rp])
    (hmal : m.jar.malformed = false)
    (haok : ra.isOk = true)
    (hset : ∃ c ∈ ra.setCookies, isAuthName c.key = true)
    (hprobe : rp.status = 401) :
    (irLogin force now m).1 = .error .sessionRejected ∧
    ((irLogin force now m).2).lastLogin = m.lastLogin ∧
    ((irLogin force now m).2).pending = [] ∧
    countAuthPosts ((irLogin force now m).2).log = countAuthPosts m.log + 1 ∧
    ((irLogin force now m).2).log.length = m.log.length + 2 := by
  have hgneg : ¬((force = false) ∧ now - m.lastLogin < TTL) := by
    rcases hguard with hf | ht
    · rintro ⟨h1, _⟩; rw [hf] at h1; cases h1
    · rintro ⟨_, h2⟩; omega
  cases force with
  | true =>
    have hclear : clearJar m.jar = { cookies := [], malformed := false } := by
      simp [clearJar, hmal]
    obtain ⟨t, ht⟩ : ∃ t, getAuthTokenFromJar
        { cookies := addCookies [] ra.setCookies, malformed := false } = some t := by
      apply Option.isSome_iff_exists.1
      rw [getAuthToken_isSome_iff]
      exact ⟨rfl, addCookies_exists_auth_of_new hset⟩
    refine ⟨?_, ?_, ?_, ?_, ?_⟩ <;>
      simp [irLogin, doFetch, hp, hclear, hmal, haok, hprobe, ht, hgneg,
        countAuthPosts_append, countAuthPosts, isAuthPost, List.filter]
  | false =>
    have hlt : ¬(now - m.lastLogin < TTL) := by
      rcases hguard with hf | ht
      · cases hf
      · omega
    obtain ⟨t, ht⟩ : ∃ t, getAuthTokenFromJar
        { cookies := addCookies m.jar.cookies ra.setCookies, malformed := false } = some t := by
      apply Option.isSome_iff_exists.1
      rw [getAuthToken_isSome_iff]
      exact ⟨rfl, addCookies_exists_auth_of_new hset⟩
    refine ⟨?_, ?_, ?_, ?_, ?_⟩ <;>
      simp [irLogin, doFetch, hp, hmal, haok, hprobe, ht, hlt,
        countAuthPosts_append, countAuthPosts, isAuthPost, List.filter]

theorem irLogin10_probe401_rejects (force : Bool) (now : Nat) (m : M)
    (ra rp : Response)
    (hguard : force = true ∨ TTL ≤ now - m.lastLogin)
    (hp : m.pending = [ra, rp])
    (haok : ra.isOk = true)
    (hprobe : rp.status = 401) :
    (irLogin10 force now m).1 = .error (.docFail 401) ∧
    ((irLogin10 force now m).2).lastLogin = m.lastLogin ∧
    ((irLogin10 force now m).2).pending = [] ∧
    countAuthPosts ((irLogin10 force now m).2).log = countAuthPosts m.log + 1 ∧
    ((irLogin10 force now m).2).log.length = m.log.length + 2 := by
  have hnotok : rp.isOk = false := by
    simp [Response.isOk, hprobe]
  cases force with
  | true =>
    have hgneg : ¬((true = false) ∧ now - m.lastLogin < TTL) := by
      rintro ⟨h1, _⟩; cases h1
    refine ⟨?_, ?_, ?_, ?_, ?_⟩ <;>
      simp [irLogin10, doFetch, hp, haok, hprobe, hnotok, hgneg,
        countAuthPosts_append, countAuthPosts, isAuthPost, List.filter]
  | false =>
    have hlt : ¬(now - m.lastLogin < TTL) := by
      rcases hguard with hf | ht
      · cases hf
      · omega
    refine ⟨?_, ?_, ?_, ?_, ?_⟩ <;>
      simp [irLogin10, doFetch, hp, haok, hprobe, hnotok, hlt,
        countAuthPosts_append, countAuthPosts, isAuthPost, List.filter]

/-- C7: in both snapshots, when the login POST succeeds but the probe
GET answers 401, ensureSession fails with a distinct condition (the
session-rejected error with status 401 in v1.1; the plain doc-probe
error in v1.0), lastLoginAt is not updated, and no automatic retry of
the login happens: the call consumes exactly the POST and the probe and
logs exactly one login POST. -/
theorem c7_probe401_distinct_rejection :
    (∀ (force : Bool) (now : Nat) (m : M) (ra rp : Response),
      (force = true ∨ TTL ≤ now - m.lastLogin) → m.pending = [ra, rp] →
      m.jar.malformed = false → ra.isOk = true →
      (∃ c ∈ ra.setCookies, isAuthName c.key = true) → rp.status = 401 →
      (irLogin force now m).1 = .error .sessionRejected ∧
      Err.statusOf .sessionRejected = some 401 ∧
      ((irLogin force now m).2).lastLogin = m.lastLogin ∧
      ((irLogin force now m).2).pending = [] ∧
      countAuthPosts ((irLogin force now m).2).log = countAuthPosts m.log + 1 ∧
      ((irLogin force now m).2).log.length = m.log.length + 2) ∧
    (∀ (force : Bool) (now : Nat) (m : M) (ra rp : Response),
      (force = true ∨ TTL ≤ now - m.lastLogin) → m.pending = [ra, rp] →
      ra.isOk = true → rp.status = 401 →
      (irLogin10 force now m).1 = .error (.docFail 401) ∧
      ((irLogin10 force now m).2).lastLogin = m.lastLogin ∧
      ((irLogin10 force now m).2).pending = [] ∧
      countAuthPosts ((irLogin10 force now m).2).log = countAuthPosts m.log + 1 ∧
      ((irLogin10 force now m).2).log.length = m.log.length + 2) := by
  constructor
  · intro force now m ra rp h1 h2 h3 h4 h5 h6
    have H := irLogin_probe401_rejects force now m ra rp h1 h2 h3 h4 h5 h6
    exact ⟨H.1, rfl, H.2.1, H.2.2.1, H.2.2.2.1, H.2.2.2.2⟩
  · intro force now m ra rp h1 h2 h3 h4
    exact irLogin10_probe401_rejects force now m ra rp h1 h2 h3 h4

/-- Witness for C7: a forced login against a queue holding a good login
response and a 401 probe, in both snapshots. -/
theorem c7_probe401_distinct_rejection_witness :
    ((irLogin true 5 (initM [respAuthOk, resp401])).1 = .error .sessionRejected ∧
      Err.statusOf .sessionRejected = some 401 ∧
      ((irLogin true 5 (initM [respAuthOk, resp401])).2).lastLogin =
        (initM [respAuthOk, resp401]).lastLogin ∧
      ((irLogin true 5 (initM [respAuthOk, resp401])).2).pending = [] ∧
      countAuthPosts ((irLogin true 5 (initM [respAuthOk, resp401])).2).log =
        countAuthPosts (initM [respAuthOk, resp401]).log + 1 ∧
      ((irLogin true 5 (initM [respAuthOk, resp401])).2).log.length =
        (initM [respAuthOk, resp401]).log.length + 2) ∧
    ((irLogin10 true 5 (initM [respAuthOk, resp401])).1 = .error (.docFail 401) ∧
      ((irLogin10 true 5 (initM [respAuthOk, resp401])).2).lastLogin =
        (initM [respAuthOk, resp401]).lastLogin ∧
      ((irLogin10 true 5 (initM [respAuthOk, resp401])).2).pending = [] ∧
      countAuthPosts ((irLogin10 true 5 (initM [respAuthOk, resp401])).2).log =
        countAuthPosts (initM [respAuthOk, resp401]).log + 1 ∧
      ((irLogin10 true 5 (initM [respAuthOk, resp401])).2).log.length =
        (initM [respAuthOk, resp401]).log.length + 2) :=
  ⟨c7_probe401_distinct_rejection.1 true 5 (initM [respAuthOk, resp401])
      respAuthOk resp401 (Or.inl rfl) rfl rfl (by decide) (by decide) rfl,
   c7_probe401_distinct_rejection.2 true 5 (initM [respAuthOk, resp401])
      respAuthOk resp401 (Or.inl rfl) rfl (by decide) rfl⟩

/-- A store in which no cookie has the authtoken name prefix yields no
token. -/
theorem getAuthToken_none_of_no_auth {jar : Jar}
    (h : ∀ c ∈ jar.cookies, isAuthName c.key = false) :
    getAuthTokenFromJar jar = none := by
  rw [← Option.not_isSome_iff_eq_none]
  intro hs
  rcases (getAuthToken_isSome_iff jar).1 hs with ⟨_, c, hc, hauth⟩
  rw [h c hc] at hauth
  cases hauth

/-- In server.js irLogin, a successful login POST after which the jar
holds no authtoken-named cookie fails before the probe GET: only the
POST is consumed and logged, and lastLogin is unchanged. -/
theorem irLogin_missing_cookie_401 (force : Bool) (now : Nat) (m : M) (ra : Response) (rest : List Response)
    (hguard : force = true ∨ TTL ≤ now - m.lastLogin)
    (hp : m.pending = ra :: rest)
    (hmal : m.jar.malformed = false)
    (haok : ra.isOk = true)
    (hjarnone : ∀ c ∈ m.jar.cookies, isAuthName c.key = false)
    (hsetnone : ∀ c ∈ ra.setCookies, isAuthName c.key = false) :
    (irLogin force now m).1 = .error .noAuthCookie ∧
    ((irLogin force now m).2).lastLogin = m.lastLogin ∧
    ((irLogin force now m).2).pending = rest ∧
    reqMeta ((irLogin force now m).2).log = reqMeta m.log ++ [(.post, authUrl)] := by
  cases force with
  | true =>
    have hgneg : ¬((true = false) ∧ now - m.lastLogin < TTL) := by
      rintro ⟨h1, _⟩; cases h1
    have hclear : clearJar m.jar = { cookies := [], malformed := false } := by
      simp [clearJar, hmal]
    have hnone : getAuthTokenFromJar
        { cookies := addCookies [] ra.setCookies, malformed := false } = none := by
      apply getAuthToken_none_of_no_auth
      intro c hc
      rcases mem_addCookies hc with h1 | h1
      · simp at h1
      · exact hsetnone c h1
    refine ⟨?_, ?_, ?_, ?_⟩ <;>
      simp [irLogin, doFetch, hp, hclear, hmal, haok, hnone, hgneg, reqMeta]
  | false =>
    have hlt : ¬(now - m.lastLogin < TTL) := by
      rcases hguard with hf | ht
      · cases hf
      · omega
    have hnone : getAuthTokenFromJar
        { cookies := addCookies m.jar.cookies ra.setCookies, malformed := false } = none := by
      apply getAuthToken_none_of_no_auth
      intro c hc
      rcases mem_addCookies hc with h1 | h1
      · exact hjarnone c h1
      · exact hsetnone c h1
    refine ⟨?_, ?_, ?_, ?_⟩ <;>
      simp [irLogin, doFetch, hp, hmal, haok, hnone, hlt, reqMeta]

/-- C9: in src/server.js, when the login POST returns a success status
but no cookie whose lowercased name starts with authtoken is in the jar
afterwards, irLogin throws the missing-cookie error, whose attached
status is 401, before issuing the probe GET (the probe response is left
unconsumed and only the POST is logged), and lastLogin is not
updated. -/
theorem c9_no_authtoken_cookie_throws_401 (force : Bool) (now : Nat) (m : M)
    (ra : Response) (rest : List Response)
    (hguard : force = true ∨ TTL ≤ now - m.lastLogin)
    (hp : m.pending = ra :: rest)
    (hmal : m.jar.malformed = false)
    (haok : ra.isOk = true)
    (hjarnone : ∀ c ∈ m.jar.cookies, isAuthName c.key = false)
    (hsetnone : ∀ c ∈ ra.setCookies, isAuthName c.key = false) :
    (irLogin force now m).1 = .error .noAuthCookie ∧
    Err.statusOf .noAuthCookie = some 401 ∧
    ((irLogin force now m).2).lastLogin = m.lastLogin ∧
    ((irLogin force now m).2).pending = rest ∧
    reqMeta ((irLogin force now m).2).log = reqMeta m.log ++ [(.post, authUrl)] := by
  have H := irLogin_missing_cookie_401 force now m ra rest hguard hp hmal haok hjarnone hsetnone
  exact ⟨H.1, rfl, H.2.1, H.2.2.1, H.2.2.2⟩

/-- Witness for C9: a forced login whose POST succeeds without setting
any cookie; the queued probe response is left unconsumed. -/
theorem c9_no_authtoken_cookie_throws_401_witness :
    (irLogin true 5 (initM [respProbeOk, respProbeOk])).1 = .error .noAuthCookie ∧
    Err.statusOf .noAuthCookie = some 401 ∧
    ((irLogin true 5 (initM [respProbeOk, respProbeOk])).2).lastLogin =
      (initM [respProbeOk, respProbeOk]).lastLogin ∧
    ((irLogin true 5 (initM [respProbeOk, respProbeOk])).2).pending = [respProbeOk] ∧
    reqMeta ((irLogin true 5 (initM [respProbeOk, respProbeOk])).2).log =
      reqMeta (initM [respProbeOk, respProbeOk]).log ++ [(.post, authUrl)] :=
  c9_no_authtoken_cookie_throws_401 true 5 (initM [respProbeOk, respProbeOk])
    respProbeOk [respProbeOk] (Or.inl rfl) rfl rfl (by decide) (by decide) (by decide)

/-- In server.js followJson, a first-stage 200 whose body carries a
non-empty link is followed: the value returned is the decoded body of
the GET to the link URL, not the envelope. -/
theorem followJson_link_result (url l d : String) (cs1 : List Cookie) (r2 : Response) (j2 : Json)
    (now : Nat) (m : M)
    (hp : m.pending = [{ status := 200, setCookies := cs1, body := .json { link := some l, payload := d } }, r2])
    (hl : l ≠ "")
    (hfresh : now - m.lastLogin < TTL)
    (h2ne : ¬(r2.status = 401))
    (h2ok : r2.isOk = true)
    (h2body : decodeBody r2.body = some j2) :
    (followJson url now m).1 = .ok j2 ∧
    reqMeta ((followJson url now m).2).log = reqMeta m.log ++ [(.get, url), (.get, l)] := by
  have hnoop := irLogin_noop (m := m) hfresh
  have hok1 : (Response.mk 200 cs1 (Body.json (Json.mk (some l) d))).isOk = true := rfl
  have hdec : decodeBody (Body.json (Json.mk (some l) d)) =
      some (Json.mk (some l) d) := rfl
  have hlb : (l != "") = true := by simp [hl]
  constructor <;>
    simp [followJson, fetchWithRetry, doFetch, hp, hnoop, hok1, hdec, hlb, h2ne, h2ok, h2body,
      Json.linkTruthy, reqMeta]

/-- In server.js followJson from a fresh state, a 401 on the link-stage
GET triggers one forced re-login and one retry of that GET, whose
decoded body is returned. -/
theorem followJson_link_retry (url l d : String) (cs1 : List Cookie) (rx ra rp r2 : Response) (j2 : Json)
    (now : Nat)
    (hl : l ≠ "")
    (hfresh : now < TTL)
    (hx401 : rx.status = 401)
    (haok : ra.isOk = true)
    (hset : ∃ c ∈ ra.setCookies, isAuthName c.key = true)
    (hpne : ¬(rp.status = 401))
    (h2ok : r2.isOk = true)
    (h2body : decodeBody r2.body = some j2) :
    (followJson url now
      (initM [Response.mk 200 cs1 (Body.json (Json.mk (some l) d)), rx, ra, rp, r2])).1 =
        .ok j2 ∧
    reqMeta ((followJson url now
      (initM [Response.mk 200 cs1 (Body.json (Json.mk (some l) d)), rx, ra, rp, r2])).2).log =
      [(.get, url), (.get, l), (.post, authUrl), (.get, docUrl), (.get, l)] ∧
    ((followJson url now
      (initM [Response.mk 200 cs1 (Body.json (Json.mk (some l) d)), rx, ra, rp, r2])).2).forcedLogins = 1 := by
  have hfresh0 : now - (0 : Nat) < TTL := by omega
  have hok1 : (Response.mk 200 cs1 (Body.json (Json.mk (some l) d))).isOk = true := rfl
  have hdec : decodeBody (Body.json (Json.mk (some l) d)) =
      some (Json.mk (some l) d) := rfl
  have hlb : (l != "") = true := by simp [hl]
  obtain ⟨t, ht⟩ : ∃ t, getAuthTokenFromJar
      { cookies := addCookies [] ra.setCookies, malformed := false } = some t := by
    apply Option.isSome_iff_exists.1
    rw [getAuthToken_isSome_iff]
    exact ⟨rfl, addCookies_exists_auth_of_new hset⟩
  refine ⟨?_, ?_, ?_⟩ <;>
    simp [followJson, fetchWithRetry, irLogin, doFetch, clearJar, initM, emptyJar,
      hfresh, hfresh0, hok1, hdec, hlb, hx401, haok, ht, hpne, h2ok, h2body,
      Json.linkTruthy, reqMeta]

/-- In server.js followJson, a successful first-stage response whose
body fails to decode yields the empty object. -/
theorem followJson_first_stage_fallback (url : String) (now : Nat) (m : M) (r : Response) (rest : List Response)
    (hp : m.pending = r :: rest)
    (hfresh : now - m.lastLogin < TTL)
    (hok : r.isOk = true)
    (hne : ¬(r.status = 401))
    (hbody : decodeBody r.body = none) :
    (followJson url now m).1 = .ok Json.empty ∧
    reqMeta ((followJson url now m).2).log = reqMeta m.log ++ [(.get, url)] := by
  have hnoop := irLogin_noop (m := m) hfresh
  constructor <;>
    simp [followJson, fetchWithRetry, doFetch, hp, hnoop, hok, hne, hbody,
      Json.linkTruthy, Json.empty, reqMeta]

/-- In server.js followJson, a successful link-stage response whose
body fails to decode propagates the parse error. -/
theorem followJson_link_decode_error (url l d : String) (cs1 : List Cookie) (r2 : Response)
    (now : Nat) (m : M)
    (hp : m.pending = [Response.mk 200 cs1 (Body.json (Json.mk (some l) d)), r2])
    (hl : l ≠ "")
    (hfresh : now - m.lastLogin < TTL)
    (h2ne : ¬(r2.status = 401))
    (h2ok : r2.isOk = true)
    (h2body : decodeBody r2.body = none) :
    (followJson url now m).1 = .error .parseFail := by
  have hnoop := irLogin_noop (m := m) hfresh
  have hok1 : (Response.mk 200 cs1 (Body.json (Json.mk (some l) d))).isOk = true := rfl
  have hdec : decodeBody (Body.json (Json.mk (some l) d)) =
      some (Json.mk (some l) d) := rfl
  have hlb : (l != "") = true := by simp [hl]
  simp [followJson, fetchWithRetry, doFetch, hp, hnoop, hok1, hdec, hlb, h2ne, h2ok, h2body,
    Json.linkTruthy, reqMeta]

/-- C2 (amended): in server.js followJson, whenever the first-stage
decoded body carries a non-empty link, the value returned to the caller
is the decoded body of a GET to that link URL, never the envelope
itself, and the one-retry-on-401 logic does apply to that second GET;
in the v1.0 snapshot the link GET is issued without the 401 retry (see
the counterexample). -/
theorem c2_link_followed_with_retry :
    (∀ (url l d : String) (cs1 : List Cookie) (r2 : Response) (j2 : Json)
      (now : Nat) (m : M),
      m.pending = [Response.mk 200 cs1 (Body.json (Json.mk (some l) d)), r2] →
      l ≠ "" → now - m.lastLogin < TTL → ¬(r2.status = 401) → r2.isOk = true →
      decodeBody r2.body = some j2 →
      (followJson url now m).1 = .ok j2 ∧
      reqMeta ((followJson url now m).2).log = reqMeta m.log ++ [(.get, url), (.get, l)]) ∧
    (∀ (url l d : String) (cs1 : List Cookie) (rx ra rp r2 : Response) (j2 : Json)
      (now : Nat),
      l ≠ "" → now < TTL → rx.status = 401 → ra.isOk = true →
      (∃ c ∈ ra.setCookies, isAuthName c.key = true) → ¬(rp.status = 401) →
      r2.isOk = true → decodeBody r2.body = some j2 →
      (followJson url now
        (initM [Response.mk 200 cs1 (Body.json (Json.mk (some l) d)), rx, ra, rp, r2])).1 =
          .ok j2 ∧
      reqMeta ((followJson url now
        (initM [Response.mk 200 cs1 (Body.json (Json.mk (some l) d)), rx, ra, rp, r2])).2).log =
        [(.get, url), (.get, l), (.post, authUrl), (.get, docUrl), (.get, l)] ∧
      ((followJson url now
        (initM [Response.mk 200 cs1 (Body.json (Json.mk (some l) d)), rx, ra, rp, r2])).2).forcedLogins = 1) :=
  ⟨fun url l d cs1 r2 j2 now m hp hl hf h1 h2 h3 =>
      followJson_link_result url l d cs1 r2 j2 now m hp hl hf h1 h2 h3,
   fun url l d cs1 rx ra rp r2 j2 now hl hf h1 h2 h3 h4 h5 h6 =>
      followJson_link_retry url l d cs1 rx ra rp r2 j2 now hl hf h1 h2 h3 h4 h5 h6⟩

/-- Witness for C2: a link-follow without retry and one with a 401 and
a forced re-login on the link stage, on concrete queues. -/
theorem c2_link_followed_with_retry_witness :
    ((followJson "U1" 5 (initM [Response.mk 200 []
        (Body.json (Json.mk (some "https://x/blob/777") "")),
        resp200 (.json (Json.mk none "laps"))])).1 = .ok (Json.mk none "laps") ∧
      reqMeta ((followJson "U1" 5 (initM [Response.mk 200 []
        (Body.json (Json.mk (some "https://x/blob/777") "")),
        resp200 (.json (Json.mk none "laps"))])).2).log =
        reqMeta (initM [Response.mk 200 []
          (Body.json (Json.mk (some "https://x/blob/777") "")),
          resp200 (.json (Json.mk none "laps"))]).log ++
          [(.get, "U1"), (.get, "https://x/blob/777")]) ∧
    ((followJson "U1" 5 (initM [Response.mk 200 []
        (Body.json (Json.mk (some "https://x/blob/777") "")),
        resp401, respAuthOk, respProbeOk,
        resp200 (.json (Json.mk none "laps"))])).1 = .ok (Json.mk none "laps") ∧
      reqMeta ((followJson "U1" 5 (initM [Response.mk 200 []
        (Body.json (Json.mk (some "https://x/blob/777") "")),
        resp401, respAuthOk, respProbeOk,
        resp200 (.json (Json.mk none "laps"))])).2).log =
        [(.get, "U1"), (.get, "https://x/blob/777"), (.post, authUrl),
          (.get, docUrl), (.get, "https://x/blob/777")] ∧
      ((followJson "U1" 5 (initM [Response.mk 200 []
        (Body.json (Json.mk (some "https://x/blob/777") "")),
        resp401, respAuthOk, respProbeOk,
        resp200 (.json (Json.mk none "laps"))])).2).forcedLogins = 1) :=
  ⟨c2_link_followed_with_retry.1 "U1" "https://x/blob/777" "" []
      (resp200 (.json (Json.mk none "laps"))) (Json.mk none "laps") 5 _
      rfl (by decide) (by decide) (by decide) (by decide) rfl,
   c2_link_followed_with_retry.2 "U1" "https://x/blob/777" "" []
      resp401 respAuthOk respProbeOk (resp200 (.json (Json.mk none "laps")))
      (Json.mk none "laps") 5
      (by decide) (by decide) (by decide) (by decide) (by decide) (by decide)
      (by decide) rfl⟩

/-- C4 (amended): in server.js followJson, a successful first-stage
response whose body fails to decode as JSON yields the empty object
rather than an error; a decode failure on the link-stage response is
NOT converted: it propagates as a parse failure (and in the v1.0
snapshot every decode failure propagates). -/
theorem c4_decode_failure_fallback_first_stage_only :
    (∀ (url : String) (now : Nat) (m : M) (r : Response) (rest : List Response),
      m.pending = r :: rest → now - m.lastLogin < TTL → r.isOk = true →
      ¬(r.status = 401) → decodeBody r.body = none →
      (followJson url now m).1 = .ok Json.empty ∧
      reqMeta ((followJson url now m).2).log = reqMeta m.log ++ [(.get, url)]) ∧
    (∀ (url l d : String) (cs1 : List Cookie) (r2 : Response) (now : Nat) (m : M),
      m.pending = [Response.mk 200 cs1 (Body.json (Json.mk (some l) d)), r2] →
      l ≠ "" → now - m.lastLogin < TTL → ¬(r2.status = 401) → r2.isOk = true →
      decodeBody r2.body = none →
      (followJson url now m).1 = .error .parseFail) :=
  ⟨fun url now m r rest hp hf h1 h2 h3 =>
      followJson_first_stage_fallback url now m r rest hp hf h1 h2 h3,
   fun url l d cs1 r2 now m hp hl hf h1 h2 h3 =>
      followJson_link_decode_error url l d cs1 r2 now m hp hl hf h1 h2 h3⟩

/-- Witness for C4: a malformed first-stage body yields the empty
object; a malformed link-stage body yields the parse error. -/
theorem c4_decode_failure_fallback_first_stage_only_witness :
    ((followJson "U1" 5 (initM [resp200 (.malformed "x")])).1 = .ok Json.empty ∧
      reqMeta ((followJson "U1" 5 (initM [resp200 (.malformed "x")])).2).log =
        reqMeta (initM [resp200 (.malformed "x")]).log ++ [(.get, "U1")]) ∧
    (followJson "U1" 5 (initM [Response.mk 200 []
        (Body.json (Json.mk (some "U2") "")),
        resp200 (.malformed "x")])).1 = .error .parseFail :=
  ⟨c4_decode_failure_fallback_first_stage_only.1 "U1" 5
      (initM [resp200 (.malformed "x")]) (resp200 (.malformed "x")) []
      rfl (by decide) (by decide) (by decide) rfl,
   c4_decode_failure_fallback_first_stage_only.2 "U1" "U2" "" []
      (resp200 (.malformed "x")) 5 (initM [Response.mk 200 []
        (Body.json (Json.mk (some "U2") "")), resp200 (.malformed "x")])
      rfl (by decide) (by decide) (by decide) (by decide) rfl⟩
